import Mathlib

/-!
# Product management service: cache-aside reads and image processing

A shallow embedding of the Go service layer
(`internal/service/product_service.go`), the repository
(`internal/repository/product_repo.go`), the Redis cache
(`internal/cache/redis_cache.go`) and the request models
(`internal/models/product.go`).

Conventions of the embedding:

* `int64` and `int` values are `Int`. The price bounds of a list request come
  from the query string, where `strconv.ParseFloat` accepts `-0`, `NaN` and
  `Inf`: they are `F64` values. The price of a product (a JSON number in the
  creation request, a column of the table) is the exact rational value of a
  finite float (`ℚ`), a JSON `-0` being read as the zero value.
* `time.Duration` is a number of nanoseconds, timestamps are clock readings.
* The database, the cache and the task queue are explicit state (`World`).
  What the infrastructure does on one call that the program does not control
  (transport failures, the clock, the database's `ILIKE`) is an explicit `Env`.
* Every service call returns its Go result, the next `World`, and the `trace`
  of infrastructure calls it made, in order.
* The service is the one `cmd/api/main.go` builds, with a live cache and a live
  publisher. `cmd/image-processor/main.go` passes `nil` for both; calls on a nil
  handle are not represented.
* Entries never expire between two calls: the expiration is recorded with the
  entry, the passing of time is not represented.
-/

namespace ProductManagement

/-! ## Formatting verbs of `fmt.Sprintf` -/

/-- The ASCII digit of a number below ten. -/
def digitChar (d : Nat) : Char := Char.ofNat (48 + d)

/-- Decimal digits of a natural number, most significant first; zero prints as `0`. -/
def fmtNat (n : Nat) : List Char :=
  if n = 0 then ['0'] else (Nat.digits 10 n).reverse.map digitChar

/-- The verb `%d` on a signed integer. -/
def fmtD (i : Int) : List Char :=
  if i < 0 then '-' :: fmtNat i.natAbs else fmtNat i.natAbs

/-- Nearest integer to a non-negative rational, halves going to the even neighbour
(the rounding `strconv` applies to the exact decimal expansion). -/
def roundHalfEven (x : ℚ) : Nat :=
  let f := x.floor.toNat
  let r := x - x.floor
  if r < 1 / 2 then f
  else if 1 / 2 < r then f + 1
  else if f % 2 = 0 then f else f + 1

/-- Digits of `n`, left-padded with zeros to at least `width` characters. -/
def padZeros (width n : Nat) : List Char :=
  let ds := if n = 0 then [] else (Nat.digits 10 n).reverse.map digitChar
  List.replicate (width - ds.length) '0' ++ ds

/-- The verb `%f` on a finite float given by its exact value: sign, integer part, a
point and six decimals. -/
def fmtFixed6 (x : ℚ) : List Char :=
  let n := roundHalfEven (|x| * 1000000)
  (if x < 0 then ['-'] else []) ++ fmtNat (n / 1000000) ++ '.' :: padZeros 6 (n % 1000000)

/-- A Go `float64`: a finite value by its exact rational (`finite 0` is positive zero),
negative zero, the two infinities, or NaN. -/
inductive F64 where
  | finite (x : ℚ)
  | negZero
  | posInf
  | negInf
  | nan
deriving DecidableEq

/-- The verb `%f` on a `float64`: six decimals for a finite value, `-0.000000` for
negative zero, `+Inf`, `-Inf` and `NaN` for the others. -/
def fmtF : F64 → List Char
  | .finite x => fmtFixed6 x
  | .negZero => "-0.000000".data
  | .posInf => "+Inf".data
  | .negInf => "-Inf".data
  | .nan => "NaN".data

/-- Go's comparison `v > 0` on a `float64`. -/
def F64.isPositive : F64 → Bool
  | .finite x => decide (0 < x)
  | .posInf => true
  | _ => false

/-- SQL `price >= $n` for a finite stored price and a bound that passed `v > 0`. -/
def F64.atMost : F64 → ℚ → Bool
  | .finite x, price => decide (x ≤ price)
  | .negZero, price => decide (0 ≤ price)
  | .negInf, _ => true
  | _, _ => false

/-- SQL `price <= $n` for a finite stored price and a bound that passed `v > 0`. -/
def F64.atLeast : F64 → ℚ → Bool
  | .finite x, price => decide (price ≤ x)
  | .negZero, price => decide (price ≤ 0)
  | .negInf, _ => false
  | _, _ => true

/-! ## Models (`internal/models/product.go`) -/

/-- The entity `models.Product`. -/
structure Product where
  ID : Int
  UserID : Int
  ProductName : String
  ProductDescription : String
  ProductPrice : ℚ
  ProductImages : List String
  CompressedProductImages : List String
  CreatedAt : Nat
  UpdatedAt : Nat
deriving DecidableEq

/-- The request `models.ProductCreateRequest`. `ProductImages` is a Go slice:
`none` is the nil slice (field absent or `null` in the body), `some []` is the
empty slice `[]`. -/
structure ProductCreateRequest where
  UserID : Int
  ProductName : String
  ProductDescription : String
  ProductPrice : ℚ
  ProductImages : Option (List String)
deriving DecidableEq

/-- The query `models.ProductFilterParams`. -/
structure ProductFilterParams where
  UserID : Int
  MinPrice : F64
  MaxPrice : F64
  ProductName : String
  Page : Int
  PageSize : Int
deriving DecidableEq

/-! ## Infrastructure state -/

/-- Bytes stored under a Redis key: the JSON of a product, the JSON of a page
(`none` is the nil slice, encoded `null`) with its total, or anything else. -/
inductive Payload where
  | product (p : Product)
  | page (products : Option (List Product)) (total : Int)
  | other (bytes : String)
deriving DecidableEq

/-- A Redis value with the expiration it was written with (nanoseconds). -/
structure CacheEntry where
  payload : Payload
  expiration : Nat
deriving DecidableEq

/-- The Redis keyspace. -/
abbrev Cache := List (String × CacheEntry)

/-- The `products` table and its id sequence. -/
structure DB where
  rows : List Product
  nextID : Int
deriving DecidableEq

/-- A message on the image-processing queue. -/
structure Task where
  product_id : Int
  image_urls : List String
deriving DecidableEq

/-- Everything the services share. -/
structure World where
  db : DB
  cache : Cache
  queue : List Task
deriving DecidableEq

/-- What the infrastructure does during one service call. -/
structure Env where
  now : Nat
  dbFails : Bool
  cacheGetFails : Bool
  cacheSetFails : Bool
  cacheDeleteFails : Bool
  publishFails : Bool
  ilike : String → String → Bool

/-- Errors a service call returns. -/
inductive ServiceError where
  | validation (failed : List (String × String))
  | message (msg : String)
deriving DecidableEq

/-- Infrastructure calls and log lines, as they appear in a trace. -/
inductive Effect where
  | cacheGet (key : String)
  | cacheSet (key : String) (value : Product) (expiration : Nat)
  | cacheDelete (key : String)
  | cacheGetList (key : String)
  | cacheSetList (key : String) (products : Option (List Product)) (total : Int)
      (expiration : Nat)
  | dbInsert (userID : Int) (name description : String) (price : ℚ) (images : List String)
  | dbFindByID (id : Int)
  | dbCount (userID : Int) (minPrice maxPrice : Option F64) (pattern : Option String)
  | dbSelectPage (userID : Int) (minPrice maxPrice : Option F64) (pattern : Option String)
      (limit offset : Int)
  | dbUpdateCompressedImages (productID : Int) (compressedImages : List String)
  | publish (productID : Int) (imageURLs : List String)
  | logError (msg : String)
deriving DecidableEq

/-- The outcome of a service call. -/
structure Result (α : Type) where
  ret : Except ServiceError α
  world : World
  trace : List Effect

/-- `time.Hour` in nanoseconds. -/
def Hour : Nat := 3600000000000

/-- `time.Minute` in nanoseconds. -/
def Minute : Nat := 60000000000

/-! ## Redis cache (`internal/cache/redis_cache.go`) -/

/-- Redis `SET key value EX`: the key now holds exactly this entry. -/
def redisSet (c : Cache) (key : String) (e : CacheEntry) : Cache :=
  (key, e) :: c.filter (fun kv => kv.1 != key)

/-- Redis `DEL key`. -/
def redisDel (c : Cache) (key : String) : Cache :=
  c.filter (fun kv => kv.1 != key)

/-- The call `json.Marshal` on a product (finite prices always encode). -/
def jsonMarshal (value : Product) : Except String Payload := .ok (.product value)

/-- `RedisCache.Set`: serialize, then `SET` with the expiration. -/
def RedisCache.Set (env : Env) (c : Cache) (key : String) (value : Product)
    (expiration : Nat) : Except String Unit × Cache :=
  match jsonMarshal value with
  | .error err => (.error ("failed to marshal product: " ++ err), c)
  | .ok data =>
    if env.cacheSetFails then (.error "redis: connection refused", c)
    else (.ok (), redisSet c key ⟨data, expiration⟩)

/-- Modelled from the spec: the remainder of `RedisCache.Get` after the Redis read,
which the source file breaks off before. The spec: "deserializes a stored
snapshot; any deserialization or transport failure is treated as absent". A
product payload decodes to that product, anything else is an error. -/
def RedisCache.decodeProduct : Payload → Except String (Option Product)
  | .product p => .ok (some p)
  | _ => .error "failed to unmarshal product"

/-- `RedisCache.Get`: a failed Redis read (transport failure, or `redis.Nil` for a
key that is absent) returns `nil` and an error; otherwise the bytes are decoded. -/
def RedisCache.Get (env : Env) (c : Cache) (key : String) : Except String (Option Product) :=
  if env.cacheGetFails then .error "failed to get from"
  else
    match c.lookup key with
    | none => .error "failed to get from"
    | some e => RedisCache.decodeProduct e.payload

/-- Modelled from the spec: `RedisCache.Delete`, absent from the source file. The spec:
"removes an entry; absence of the key is not an error"; a transport failure is
returned to the caller. -/
def RedisCache.Delete (env : Env) (c : Cache) (key : String) : Except String Unit × Cache :=
  if env.cacheDeleteFails then (.error "redis: connection refused", c)
  else (.ok (), redisDel c key)

/-- Modelled from the spec: `RedisCache.GetList`, absent from the source file. The spec:
"same semantics for paginated collections". -/
def RedisCache.GetList (env : Env) (c : Cache) (key : String) :
    Except String (Option (List Product) × Int) :=
  if env.cacheGetFails then .error "failed to get from"
  else
    match c.lookup key with
    | some ⟨.page products total, _⟩ => .ok (products, total)
    | _ => .error "failed to get from"

/-- Modelled from the spec: `RedisCache.SetList`, absent from the source file. The spec:
"serializes and stores with expiration". -/
def RedisCache.SetList (env : Env) (c : Cache) (key : String)
    (products : Option (List Product)) (total : Int) (expiration : Nat) :
    Except String Unit × Cache :=
  if env.cacheSetFails then (.error "redis: connection refused", c)
  else (.ok (), redisSet c key ⟨.page products total, expiration⟩)

/-! ## Task queue publisher -/

/-- Modelled from the spec: `RabbitMQPublisher.PublishImageProcessingTask`, absent from
the source. The spec: "Task channel message (producer to consumer):
product_id, image_urls"; an unreachable channel returns an error. -/
def PublishImageProcessingTask (env : Env) (queue : List Task) (productID : Int)
    (imageURLs : List String) : Except String Unit × List Task :=
  if env.publishFails then (.error "amqp: channel closed", queue)
  else (.ok (), queue ++ [⟨productID, imageURLs⟩])

/-! ## Repository (`internal/repository/product_repo.go`) -/

/-- Modelled from the spec: the row the `products` table stores for an insert; the
table definition is not in the source. The spec: "numeric ID, assigned by the
store on creation (monotonic, unique)", "store assigns ID + timestamps",
compressed image references "initially empty". -/
def insertedRow (env : Env) (db : DB) (product : Product) : Product :=
  { ID := db.nextID
    UserID := product.UserID
    ProductName := product.ProductName
    ProductDescription := product.ProductDescription
    ProductPrice := product.ProductPrice
    ProductImages := product.ProductImages
    CompressedProductImages := []
    CreatedAt := env.now
    UpdatedAt := env.now }

/-- `ProductRepository.Create`: `INSERT ... RETURNING id, created_at, updated_at` with
the five request columns; the three returned columns are scanned into the
product. -/
def ProductRepository.Create (env : Env) (db : DB) (product : Product) :
    Except ServiceError Product × DB × List Effect :=
  let call := Effect.dbInsert product.UserID product.ProductName product.ProductDescription
    product.ProductPrice product.ProductImages
  if env.dbFails then
    (.error (.message "failed to create product: connection refused"), db,
      [call, .logError "Failed to create product"])
  else
    let row := insertedRow env db product
    (.ok { product with ID := row.ID, CreatedAt := row.CreatedAt, UpdatedAt := row.UpdatedAt },
      { rows := db.rows ++ [row], nextID := db.nextID + 1 }, [call])

/-- Scanning the two array columns of a row. Both destinations are
`pq.Array(&field)` with a field of type `pq.StringArray`; a `*pq.StringArray` is
not one of the pointer types `pq.Array` knows, so the value is wrapped in
`pq.GenericArray`, whose `Scan` accepts `NULL` and `{}` and fails on the first
element of any other array, `string` not being an `sql.Scanner`. The result is
the error of `Rows.Scan`, if any: `product_images` is column 5,
`compressed_product_images` column 6. -/
def scanArrays (r : Product) : Option String :=
  if r.ProductImages ≠ [] then
    some ("sql: Scan error on column index 5, name product_images: "
      ++ "pq: parsing array element index 0: "
      ++ "pq: scanning to string is not implemented; only sql.Scanner")
  else if r.CompressedProductImages ≠ [] then
    some ("sql: Scan error on column index 6, name compressed_product_images: "
      ++ "pq: parsing array element index 0: "
      ++ "pq: scanning to string is not implemented; only sql.Scanner")
  else none

/-- `ProductRepository.FindByID`: `SELECT ... WHERE id = $1` scanned into a fresh
product; `sql.ErrNoRows` becomes "product not found", any other failure (the
driver, or the scan of the row) is logged and wrapped. -/
def ProductRepository.FindByID (env : Env) (db : DB) (id : Int) :
    Except ServiceError Product × List Effect :=
  if env.dbFails then
    (.error (.message "failed to retrieve product: connection refused"),
      [.dbFindByID id, .logError "Failed to find product"])
  else
    match db.rows.find? (fun r => r.ID == id) with
    | none => (.error (.message "product not found"), [.dbFindByID id])
    | some product =>
      match scanArrays product with
      | some err =>
        (.error (.message ("failed to retrieve product: " ++ err)),
          [.dbFindByID id, .logError "Failed to find product"])
      | none => (.ok product, [.dbFindByID id])

/-- `ProductRepository.UpdateCompressedImages`:
`UPDATE products SET compressed_product_images = $1, updated_at = CURRENT_TIMESTAMP
WHERE id = $2`. A statement that matches no row is not an error. -/
def ProductRepository.UpdateCompressedImages (env : Env) (db : DB) (productID : Int)
    (compressedImages : List String) : Except ServiceError Unit × DB × List Effect :=
  if env.dbFails then
    (.error (.message "failed to update compressed images: connection refused"), db,
      [.dbUpdateCompressedImages productID compressedImages,
        .logError "Failed to update compressed images"])
  else
    (.ok (),
      { db with rows := db.rows.map (fun r =>
          if r.ID = productID then
            { r with CompressedProductImages := compressedImages, UpdatedAt := env.now }
          else r) },
      [.dbUpdateCompressedImages productID compressedImages])

/-- Two-complement wrap of Go `int` arithmetic (64 bits). -/
def wrapInt64 (x : Int) : Int := (x + 2 ^ 63) % 2 ^ 64 - 2 ^ 63

/-- The pagination defaults applied in `FindByUserID` (written back through the
`params` pointer): a page below 1 becomes 1, a page size below 1 becomes 10. -/
def normalizePagination (params : ProductFilterParams) : ProductFilterParams :=
  let p1 := if params.Page < 1 then { params with Page := 1 } else params
  if p1.PageSize < 1 then { p1 with PageSize := 10 } else p1

/-- The `WHERE` clause built by `FindByUserID`: the owner always, a price bound only
when it is positive, the name pattern only when the name is not empty. -/
def matchesFilter (env : Env) (params : ProductFilterParams) (r : Product) : Bool :=
  r.UserID == params.UserID
    && (if params.MinPrice.isPositive then params.MinPrice.atMost r.ProductPrice else true)
    && (if params.MaxPrice.isPositive then params.MaxPrice.atLeast r.ProductPrice else true)
    && (if params.ProductName ≠ "" then env.ilike ("%" ++ params.ProductName ++ "%") r.ProductName
        else true)

/-- `ProductRepository.FindByUserID`: the count query, then the page query with
`LIMIT page_size OFFSET (page - 1) * page_size`, its rows scanned one by one (the
first row whose scan fails ends the call); returns the page (the nil slice when
no row was scanned), the total, and the normalized `params`. -/
def ProductRepository.FindByUserID (env : Env) (db : DB) (params : ProductFilterParams) :
    Except ServiceError (Option (List Product) × Int) × ProductFilterParams × List Effect :=
  let minPrice := if params.MinPrice.isPositive then some params.MinPrice else none
  let maxPrice := if params.MaxPrice.isPositive then some params.MaxPrice else none
  let pattern := if params.ProductName ≠ "" then some ("%" ++ params.ProductName ++ "%") else none
  let params1 := normalizePagination params
  let offset := wrapInt64 ((params1.Page - 1) * params1.PageSize)
  let count := Effect.dbCount params.UserID minPrice maxPrice pattern
  let select := Effect.dbSelectPage params.UserID minPrice maxPrice pattern params1.PageSize offset
  if env.dbFails then
    (.error (.message "failed to count products: connection refused"), params1,
      [count, .logError "Failed to count products"])
  else
    let matching := db.rows.filter (matchesFilter env params)
    let totalCount : Int := matching.length
    if offset < 0 then
      (.error (.message "failed to retrieve products: OFFSET must not be negative"), params1,
        [count, select, .logError "Failed to find products"])
    else
      let page := (matching.drop offset.toNat).take params1.PageSize.toNat
      match page.findSome? scanArrays with
      | some err =>
        (.error (.message ("failed to scan product: " ++ err)), params1,
          [count, select, .logError "Failed to scan product"])
      | none =>
        (.ok (if page = [] then none else some page, totalCount), params1, [count, select])

/-! ## Request validation (`validator.Struct` on the tagged models) -/

/-- The tag `required` on an integer: not the zero value. -/
def requiredInt (v : Int) : Bool := v != 0

/-- The tag `required` on a string: not the empty string. -/
def requiredString (v : String) : Bool := v != ""

/-- The tag `required` on a float: not the zero value. -/
def requiredFloat (v : ℚ) : Bool := v != 0

/-- The tag `required` on a slice: not nil. -/
def requiredSlice (v : Option (List String)) : Bool := v.isSome

/-- The tag `max=255` on a string: at most 255 runes. -/
def maxString (limit : Nat) (v : String) : Bool := decide (v.length ≤ limit)

/-- The tag `min=0` on a float: at least the bound. -/
def minFloat (bound : ℚ) (v : ℚ) : Bool := decide (bound ≤ v)

/-- The first failing tag of a field, tags tried from left to right. -/
def firstFailing (field : String) (checks : List (String × Bool)) : List (String × String) :=
  match checks.find? (fun c => !c.2) with
  | none => []
  | some c => [(field, c.1)]

/-- `validator.Struct` on a `ProductCreateRequest`, following its struct tags:
`UserID: required`, `ProductName: required,max=255`, `ProductDescription:` none,
`ProductPrice: required,min=0`, `ProductImages: required`. The result lists
each failing field with the tag it failed on. -/
def validateCreateRequest (req : ProductCreateRequest) : List (String × String) :=
  firstFailing "UserID" [("required", requiredInt req.UserID)]
    ++ firstFailing "ProductName"
        [("required", requiredString req.ProductName), ("max", maxString 255 req.ProductName)]
    ++ firstFailing "ProductPrice"
        [("required", requiredFloat req.ProductPrice), ("min", minFloat 0 req.ProductPrice)]
    ++ firstFailing "ProductImages" [("required", requiredSlice req.ProductImages)]

/-- `validator.Struct` on a `ProductFilterParams`: the struct carries no `validate`
tag, so nothing is checked. -/
def validateFilterParams (_ : ProductFilterParams) : List (String × String) := []

/-! ## Service (`internal/service/product_service.go`) -/

/-- The cache key of one product: `fmt.Sprintf("product:%d", productID)`. -/
def productCacheKey (productID : Int) : String :=
  "product:" ++ String.mk (fmtD productID)

/-- The cache key of a list request, as `ListProducts` formats it:
`fmt.Sprintf("products:%d:%f:%f:%s:%d:%d", UserID, MinPrice, MaxPrice, ProductName,
Page, PageSize)`. -/
def listCacheKey (params : ProductFilterParams) : String :=
  "products:" ++ String.mk (fmtD params.UserID)
    ++ ":" ++ String.mk (fmtF params.MinPrice)
    ++ ":" ++ String.mk (fmtF params.MaxPrice)
    ++ ":" ++ params.ProductName
    ++ ":" ++ String.mk (fmtD params.Page)
    ++ ":" ++ String.mk (fmtD params.PageSize)

/-- `ProductService.CreateProduct`. -/
def CreateProduct (env : Env) (w : World) (req : ProductCreateRequest) : Result Product :=
  match validateCreateRequest req with
  | f :: fs => ⟨.error (.validation (f :: fs)), w, []⟩
  | [] =>
    let product : Product :=
      { ID := 0
        UserID := req.UserID
        ProductName := req.ProductName
        ProductDescription := req.ProductDescription
        ProductPrice := req.ProductPrice
        ProductImages := req.ProductImages.getD []
        CompressedProductImages := []
        CreatedAt := env.now
        UpdatedAt := env.now }
    match ProductRepository.Create env w.db product with
    | (.error err, db, t) => ⟨.error err, { w with db := db }, t⟩
    | (.ok product, db, t) =>
      match PublishImageProcessingTask env w.queue product.ID product.ProductImages with
      | (.error _, queue) =>
        ⟨.ok product, { w with db := db, queue := queue },
          t ++ [.publish product.ID product.ProductImages,
            .logError "Failed to publish image processing task"]⟩
      | (.ok _, queue) =>
        ⟨.ok product, { w with db := db, queue := queue },
          t ++ [.publish product.ID product.ProductImages]⟩

/-- `ProductService.GetProductByID`: cache first, then the database, then a
best-effort `Set` with `1*time.Hour`. -/
def GetProductByID (env : Env) (w : World) (productID : Int) : Result Product :=
  let cacheKey := productCacheKey productID
  match RedisCache.Get env w.cache cacheKey with
  | .ok (some cachedProduct) => ⟨.ok cachedProduct, w, [.cacheGet cacheKey]⟩
  | _ =>
    match ProductRepository.FindByID env w.db productID with
    | (.error err, t) => ⟨.error err, w, .cacheGet cacheKey :: t⟩
    | (.ok product, t) =>
      match RedisCache.Set env w.cache cacheKey product (1 * Hour) with
      | (.error _, cache) =>
        ⟨.ok product, { w with cache := cache },
          .cacheGet cacheKey :: t
            ++ [.cacheSet cacheKey product (1 * Hour), .logError "Failed to cache product"]⟩
      | (.ok _, cache) =>
        ⟨.ok product, { w with cache := cache },
          .cacheGet cacheKey :: t ++ [.cacheSet cacheKey product (1 * Hour)]⟩

/-- `ProductService.ListProducts`: the key is formatted from `params` as received,
the cache is tried, then `FindByUserID` (which normalizes the pagination), then
a best-effort `SetList` with `30*time.Minute` under the same key. Returns the
page, the total, and `params` as the caller sees it afterwards. -/
def ListProducts (env : Env) (w : World) (params : ProductFilterParams) :
    Result (Option (List Product) × Int) × ProductFilterParams :=
  match validateFilterParams params with
  | f :: fs => (⟨.error (.validation (f :: fs)), w, []⟩, params)
  | [] =>
    let cacheKey := listCacheKey params
    match RedisCache.GetList env w.cache cacheKey with
    | .ok (some cachedProducts, totalCount) =>
      (⟨.ok (some cachedProducts, totalCount), w, [.cacheGetList cacheKey]⟩, params)
    | _ =>
      match ProductRepository.FindByUserID env w.db params with
      | (.error err, params1, t) => (⟨.error err, w, .cacheGetList cacheKey :: t⟩, params1)
      | (.ok (products, total), params1, t) =>
        match RedisCache.SetList env w.cache cacheKey products total (30 * Minute) with
        | (.error _, cache) =>
          (⟨.ok (products, total), { w with cache := cache },
            .cacheGetList cacheKey :: t
              ++ [.cacheSetList cacheKey products total (30 * Minute),
                .logError "Failed to cache product list"]⟩, params1)
        | (.ok _, cache) =>
          (⟨.ok (products, total), { w with cache := cache },
            .cacheGetList cacheKey :: t
              ++ [.cacheSetList cacheKey products total (30 * Minute)]⟩, params1)

/-- The loop of `ProcessProductImages`: `compressedImages[i]` is assigned
`fmt.Sprintf("compressed_%s", url)` for the `i`-th `url` of the range. -/
def compressLoop : List String → Nat → List String → List String
  | [], _, compressedImages => compressedImages
  | url :: rest, i, compressedImages =>
    compressLoop rest (i + 1) (compressedImages.set i ("compressed_" ++ url))

/-- `ProductService.ProcessProductImages`: fill `make([]string, len(imageURLs))` by
the loop, write it with `UpdateCompressedImages`, then delete the product key
from the cache (a failed delete is logged only). -/
def ProcessProductImages (env : Env) (w : World) (productID : Int)
    (imageURLs : List String) : Result Unit :=
  let compressedImages := compressLoop imageURLs 0 (List.replicate imageURLs.length "")
  match ProductRepository.UpdateCompressedImages env w.db productID compressedImages with
  | (.error err, db, t) => ⟨.error err, { w with db := db }, t⟩
  | (.ok _, db, t) =>
    let cacheKey := productCacheKey productID
    match RedisCache.Delete env w.cache cacheKey with
    | (.error _, cache) =>
      ⟨.ok (), { w with db := db, cache := cache },
        t ++ [.cacheDelete cacheKey, .logError "Failed to invalidate product cache"]⟩
    | (.ok _, cache) =>
      ⟨.ok (), { w with db := db, cache := cache }, t ++ [.cacheDelete cacheKey]⟩

/-! ## Concrete worlds used in examples -/

/-- An infrastructure on which nothing fails. -/
def healthy : Env :=
  { now := 100, dbFails := false, cacheGetFails := false, cacheSetFails := false,
    cacheDeleteFails := false, publishFails := false, ilike := fun _ _ => true }

/-- The product of the spec scenario, as stored right after its creation. -/
def widget : Product :=
  { ID := 1, UserID := 1, ProductName := "Widget", ProductDescription := "",
    ProductPrice := 19 / 2, ProductImages := ["a.jpg", "b.jpg"],
    CompressedProductImages := [], CreatedAt := 5, UpdatedAt := 5 }

/-- A world holding only the widget, with a cold cache. -/
def widgetWorld : World :=
  { db := { rows := [widget], nextID := 2 }, cache := [], queue := [] }

/-- The widget after its images were processed at clock reading 100. -/
def processedWidget : Product :=
  { widget with CompressedProductImages := ["compressed_a.jpg", "compressed_b.jpg"],
                UpdatedAt := 100 }

/-- A world where the store holds the processed widget while the cache still holds the
snapshot taken before processing. -/
def staleCacheWorld : World :=
  { db := { rows := [processedWidget], nextID := 2 },
    cache := [(productCacheKey 1, ⟨.product widget, Hour⟩)], queue := [] }

/-- An infrastructure on which only the cache delete fails. -/
def deleteFails : Env := { healthy with cacheDeleteFails := true }

/-- An infrastructure on which Redis is unreachable. -/
def cacheDown : Env :=
  { healthy with cacheGetFails := true, cacheSetFails := true, cacheDeleteFails := true }

/-- A list request with a minimum price of exactly 1. -/
def minPriceOne : ProductFilterParams :=
  { UserID := 1, MinPrice := .finite 1, MaxPrice := .finite 0, ProductName := "", Page := 1,
    PageSize := 10 }

/-- The same request with the minimum price one `2^-30` step higher (both prices are
exact binary floats). -/
def minPriceAboveOne : ProductFilterParams :=
  { UserID := 1, MinPrice := .finite (1 + 1 / 2 ^ 30), MaxPrice := .finite 0,
    ProductName := "", Page := 1,
    PageSize := 10 }

/-- The spec scenario `list(user_id:1, page:0, page_size:0)`. -/
def rawPageZero : ProductFilterParams :=
  { UserID := 1, MinPrice := .finite 0, MaxPrice := .finite 0, ProductName := "", Page := 0,
    PageSize := 0 }

/-- The request `list(user_id:1, page:1, page_size:10)`. -/
def firstPageOfTen : ProductFilterParams :=
  { UserID := 1, MinPrice := .finite 0, MaxPrice := .finite 0, ProductName := "", Page := 1,
    PageSize := 10 }

/-- A creation request for a free product: every field present, price 0. -/
def freeWidgetRequest : ProductCreateRequest :=
  { UserID := 1, ProductName := "Widget", ProductDescription := "", ProductPrice := 0,
    ProductImages := some ["a.jpg", "b.jpg"] }

/-- A creation request whose body carries `"product_images": []`. -/
def noImagesRequest : ProductCreateRequest :=
  { UserID := 1, ProductName := "Widget", ProductDescription := "", ProductPrice := 19 / 2,
    ProductImages := some [] }

/-- A creation request with no user, no name, a negative price and no image list. -/
def invalidRequest : ProductCreateRequest :=
  { UserID := 0, ProductName := "", ProductDescription := "", ProductPrice := -1,
    ProductImages := none }

/-- An infrastructure on which only the task queue is unreachable. -/
def publishDown : Env := { healthy with publishFails := true }

/-- A healthy infrastructure at a later clock reading. -/
def laterClock : Env := { healthy with now := 200 }

/-- The creation request of the spec scenario (price 9.5). -/
def widgetRequest : ProductCreateRequest :=
  { UserID := 1, ProductName := "Widget", ProductDescription := "", ProductPrice := 19 / 2,
    ProductImages := some ["a.jpg", "b.jpg"] }

/-- A widget created with the image list `[]`: both array columns are empty. -/
def bareWidget : Product :=
  { ID := 1, UserID := 1, ProductName := "Widget", ProductDescription := "",
    ProductPrice := 19 / 2, ProductImages := [], CompressedProductImages := [],
    CreatedAt := 5, UpdatedAt := 5 }

/-- The bare widget after its (empty) image task was processed at clock reading 100. -/
def bareWidgetReprocessed : Product := { bareWidget with UpdatedAt := 100 }

/-- A world holding only the bare widget, with a cold cache. -/
def bareWorld : World :=
  { db := { rows := [bareWidget], nextID := 2 }, cache := [], queue := [] }

/-- The bare world after one read: a snapshot of the bare widget is cached. -/
def cachedBareWorld : World :=
  { bareWorld with cache := [(productCacheKey 1, ⟨.product bareWidget, 1 * Hour⟩)] }

/-- The store holds the reprocessed bare widget, the cache the snapshot taken before. -/
def staleBareWorld : World :=
  { db := { rows := [bareWidgetReprocessed], nextID := 2 },
    cache := [(productCacheKey 1, ⟨.product bareWidget, 1 * Hour⟩)], queue := [] }

/-- The loop started at index `i` overwrites the cells `i, i+1, ...` of the slice with
the compressed names, in order, and leaves the other cells alone. -/
theorem compressLoop_spec (urls : List String) :
    ∀ (i : Nat) (acc : List String), i + urls.length ≤ acc.length →
      compressLoop urls i acc
        = acc.take i ++ urls.map (fun url => "compressed_" ++ url)
            ++ acc.drop (i + urls.length) := by
  induction urls with
  | nil => intro i acc _; simp [compressLoop]
  | cons url rest ih =>
    intro i acc h
    simp only [List.length_cons] at h
    have hi : i < acc.length := by omega
    rw [compressLoop, ih (i + 1) _ (by simp; omega)]
    rw [List.set_eq_take_append_cons_drop]
    simp only [hi, if_true]
    have h1 : (List.take i acc).length = i := by simp; omega
    rw [List.take_append_eq_append_take, List.drop_append_eq_append_drop]
    simp [h1, List.take_take]
    have h2 : i + 1 + rest.length - i = rest.length + 1 := by omega
    have h3 : List.drop (i + 1 + rest.length) (List.take i acc) = [] := by
      apply List.drop_eq_nil_of_le; omega
    rw [h2, h3, List.drop_succ_cons, List.drop_drop]
    simp only [List.nil_append]
    congr 1; omega

/-- On the slice made by `make([]string, len(imageURLs))` the loop computes the
compressed name of every URL. -/
theorem compressLoop_eq_map (urls : List String) :
    compressLoop urls 0 (List.replicate urls.length "")
      = urls.map (fun url => "compressed_" ++ url) := by
  rw [compressLoop_spec urls 0 _ (by simp)]
  simp

/-- The first infrastructure call of `ProcessProductImages` is the compressed-images
update, carrying the compressed names. -/
theorem ProcessProductImages_trace_head (env : Env) (w : World) (productID : Int)
    (urls : List String) :
    (ProcessProductImages env w productID urls).trace.head?
      = some (Effect.dbUpdateCompressedImages productID
          (urls.map (fun url => "compressed_" ++ url))) := by
  unfold ProcessProductImages ProductRepository.UpdateCompressedImages RedisCache.Delete
  rw [compressLoop_eq_map]
  cases env.dbFails <;> cases env.cacheDeleteFails <;> simp

/-- C1: for every product ID and every list `urls`, the list that
`ProcessProductImages` hands to the store's compressed-images update has the
length of `urls` and at every index `i` holds `"compressed_"` followed by
`urls[i]` (order preserved, one-to-one). -/
theorem C1_compressed_list_pointwise (env : Env) (w : World) (productID : Int)
    (urls : List String) :
    ∃ l : List String,
      (ProcessProductImages env w productID urls).trace.head?
          = some (Effect.dbUpdateCompressedImages productID l)
        ∧ l.length = urls.length
        ∧ ∀ i : Nat, l[i]? = (urls[i]?).map (fun url => "compressed_" ++ url) :=
  ⟨urls.map (fun url => "compressed_" ++ url),
    ProcessProductImages_trace_head env w productID urls, by simp, by simp⟩

/-- The spec scenario: `["a.jpg","b.jpg"]` is written as
`["compressed_a.jpg","compressed_b.jpg"]`, and the empty list as the empty list. -/
theorem ProcessProductImages_scenario :
    (ProcessProductImages healthy widgetWorld 1 ["a.jpg", "b.jpg"]).trace.head?
        = some (Effect.dbUpdateCompressedImages 1 ["compressed_a.jpg", "compressed_b.jpg"])
      ∧ (ProcessProductImages healthy widgetWorld 1 []).trace.head?
        = some (Effect.dbUpdateCompressedImages 1 []) := by
  constructor <;> rw [ProcessProductImages_trace_head] <;> decide

/-! ### Redis keyspace -/

/-- After `SET key e` the key holds `e`. -/
theorem lookup_redisSet (c : Cache) (key : String) (e : CacheEntry) :
    (redisSet c key e).lookup key = some e := by
  simp [redisSet, List.lookup_cons]

/-! ### `GetProductByID` -/

/-- When the cache read does not hand back a product, `GetProductByID` is its
database path. -/
theorem GetProductByID_miss (env : Env) (w : World) (productID : Int)
    (hmiss : ∀ p, RedisCache.Get env w.cache (productCacheKey productID) ≠ .ok (some p)) :
    GetProductByID env w productID =
      match ProductRepository.FindByID env w.db productID with
      | (.error err, t) => ⟨.error err, w, .cacheGet (productCacheKey productID) :: t⟩
      | (.ok product, t) =>
        match RedisCache.Set env w.cache (productCacheKey productID) product (1 * Hour) with
        | (.error _, cache) =>
          ⟨.ok product, { w with cache := cache },
            .cacheGet (productCacheKey productID) :: t
              ++ [.cacheSet (productCacheKey productID) product (1 * Hour),
                .logError "Failed to cache product"]⟩
        | (.ok _, cache) =>
          ⟨.ok product, { w with cache := cache },
            .cacheGet (productCacheKey productID) :: t
              ++ [.cacheSet (productCacheKey productID) product (1 * Hour)]⟩ := by
  unfold GetProductByID
  cases h : RedisCache.Get env w.cache (productCacheKey productID) with
  | error e => simp
  | ok o =>
    cases o with
    | none => simp
    | some p => exact absurd h (hmiss p)

/-- On the bare widget the read after the invalidation succeeds and returns the row
the worker wrote, not the snapshot. -/
theorem GetProductByID_after_processing_bare :
    (GetProductByID healthy (ProcessProductImages healthy cachedBareWorld 1 []).world 1).ret
      = .ok bareWidgetReprocessed := by
  have hw : (ProcessProductImages healthy cachedBareWorld 1 []).world
      = { bareWorld with db := { rows := [bareWidgetReprocessed], nextID := 2 } } := by
    simp [ProcessProductImages, ProductRepository.UpdateCompressedImages, RedisCache.Delete,
      healthy, cachedBareWorld, bareWorld, bareWidget, bareWidgetReprocessed, compressLoop,
      redisDel]
  rw [hw]
  simp [GetProductByID, RedisCache.Get, RedisCache.Set, jsonMarshal,
    ProductRepository.FindByID, scanArrays, healthy, bareWorld, bareWidgetReprocessed,
    bareWidget]

/-- C3: when the cache read of `"product:<id>"` hands back a product (the key is
present and readable), `GetProductByID` returns that product with no error,
leaves the store, the cache and the queue exactly as they were, and its only
infrastructure call is that cache read: no store read, no cache write. -/
theorem C3_cache_hit_touches_nothing (env : Env) (w : World) (productID : Int)
    (cached : Product)
    (hget : RedisCache.Get env w.cache ("product:" ++ String.mk (fmtD productID))
      = .ok (some cached)) :
    (GetProductByID env w productID).ret = .ok cached
      ∧ (GetProductByID env w productID).world = w
      ∧ (GetProductByID env w productID).trace
          = [Effect.cacheGet ("product:" ++ String.mk (fmtD productID))] := by
  have hkey : productCacheKey productID = "product:" ++ String.mk (fmtD productID) := rfl
  have hcall : GetProductByID env w productID
      = ⟨.ok cached, w, [.cacheGet (productCacheKey productID)]⟩ := by
    unfold GetProductByID
    simp only [hkey, hget]
  rw [hcall, hkey]
  exact ⟨rfl, rfl, rfl⟩

/-- C3 at a concrete hit: the cached snapshot of the widget is returned even though the
store holds a newer row. -/
theorem C3_cache_hit_touches_nothing_witness :
    (GetProductByID healthy staleCacheWorld 1).ret = .ok widget
      ∧ (GetProductByID healthy staleCacheWorld 1).world = staleCacheWorld
      ∧ (GetProductByID healthy staleCacheWorld 1).trace
          = [Effect.cacheGet ("product:" ++ String.mk (fmtD 1))] :=
  C3_cache_hit_touches_nothing healthy staleCacheWorld 1 widget
    (by simp [RedisCache.Get, RedisCache.decodeProduct, healthy, staleCacheWorld,
      productCacheKey, List.lookup_cons])

/-- When the cache read misses or fails and the store read hands back the product,
`GetProductByID` returns exactly that product and leaves the store alone,
whether the populate fails (cache unchanged) or succeeds; when it succeeds, the
key `"product:<id>"` holds the product with an expiration of one hour
(60 * 60 * 10^9 nanoseconds). -/
theorem GetProductByID_store_success_populates (env : Env) (w : World) (productID : Int)
    (product : Product)
    (hmiss : ∀ p, RedisCache.Get env w.cache (productCacheKey productID) ≠ .ok (some p))
    (hstore : (ProductRepository.FindByID env w.db productID).1 = .ok product) :
    (GetProductByID env w productID).ret = .ok product
      ∧ (GetProductByID env w productID).world.db = w.db
      ∧ (env.cacheSetFails = true → (GetProductByID env w productID).world.cache = w.cache)
      ∧ (env.cacheSetFails = false →
          (GetProductByID env w productID).world.cache.lookup
              ("product:" ++ String.mk (fmtD productID))
            = some ⟨Payload.product product, 60 * 60 * 1000000000⟩) := by
  rw [GetProductByID_miss env w productID hmiss]
  rcases hf : ProductRepository.FindByID env w.db productID with ⟨r, t⟩
  rw [hf] at hstore
  simp only at hstore
  subst hstore
  cases hs : env.cacheSetFails <;>
    simp [RedisCache.Set, jsonMarshal, hs, lookup_redisSet, productCacheKey, Hour]

/-- When the row of the id carries a non-empty image array and the cache does not hand
back a product, `GetProductByID` on a reachable store returns the scan error and
leaves the world as it was: nothing is cached. -/
theorem GetProductByID_scan_failure (env : Env) (w : World) (productID : Int) (row : Product)
    (hmiss : ∀ p, RedisCache.Get env w.cache (productCacheKey productID) ≠ .ok (some p))
    (hdb : env.dbFails = false)
    (hrow : w.db.rows.find? (fun r => r.ID == productID) = some row)
    (himg : row.ProductImages ≠ [] ∨ row.CompressedProductImages ≠ []) :
    (∃ msg, (GetProductByID env w productID).ret = .error (.message msg))
      ∧ (GetProductByID env w productID).world = w := by
  have hscan : ∃ err, scanArrays row = some err := by
    unfold scanArrays
    by_cases h1 : row.ProductImages = []
    · have h2 : row.CompressedProductImages ≠ [] := by
        rcases himg with h | h
        · exact absurd h1 h
        · exact h
      simp [h1, h2]
    · simp [h1]
  rcases hscan with ⟨err, herr⟩
  rw [GetProductByID_miss env w productID hmiss]
  simp [ProductRepository.FindByID, hdb, hrow, herr]

/-- C4 at the failing input: the store holds the widget of the spec scenario (id 1,
images `a.jpg` and `b.jpg`), the cache is cold and nothing is unreachable, yet
`GetProductByID(1)` returns the scan error of the `product_images` column instead
of the store's product, and caches nothing. -/
theorem C4_store_read_fails_on_image_arrays :
    widgetWorld.db.rows = [widget]
      ∧ widget.ID = 1
      ∧ widget.ProductImages = ["a.jpg", "b.jpg"]
      ∧ widgetWorld.cache.lookup (productCacheKey 1) = none
      ∧ (GetProductByID healthy widgetWorld 1).ret
          = .error (.message ("failed to retrieve product: "
              ++ "sql: Scan error on column index 5, name product_images: "
              ++ "pq: parsing array element index 0: "
              ++ "pq: scanning to string is not implemented; only sql.Scanner"))
      ∧ (GetProductByID healthy widgetWorld 1).world = widgetWorld := by
  have hmiss : ∀ p, RedisCache.Get healthy widgetWorld.cache (productCacheKey 1)
      ≠ .ok (some p) := by
    intro p; simp [RedisCache.Get, healthy, widgetWorld]
  refine ⟨rfl, rfl, rfl, rfl, ?_, ?_⟩
  · rw [GetProductByID_miss healthy widgetWorld 1 hmiss]
    simp [ProductRepository.FindByID, scanArrays, healthy, widgetWorld, widget]
  · rw [GetProductByID_miss healthy widgetWorld 1 hmiss]
    simp [ProductRepository.FindByID, scanArrays, healthy, widgetWorld, widget]

/-- C5: for a product id with no cache entry and no row in the store, `GetProductByID`
returns an error and no product ("product not found" when the store is
reachable), and the world is unchanged: no cache entry is created for the id. -/
theorem C5_not_found_creates_no_entry (env : Env) (w : World) (productID : Int)
    (hcache : w.cache.lookup (productCacheKey productID) = none)
    (hrow : ∀ r ∈ w.db.rows, r.ID ≠ productID) :
    (∃ err, (GetProductByID env w productID).ret = .error err)
      ∧ (env.dbFails = false →
          (GetProductByID env w productID).ret = .error (.message "product not found"))
      ∧ (GetProductByID env w productID).world = w
      ∧ (GetProductByID env w productID).world.cache.lookup (productCacheKey productID)
          = none := by
  have hmiss : ∀ p, RedisCache.Get env w.cache (productCacheKey productID) ≠ .ok (some p) := by
    intro p; unfold RedisCache.Get; rw [hcache]; cases env.cacheGetFails <;> simp
  have hfind : w.db.rows.find? (fun r => r.ID == productID) = none := by
    rw [List.find?_eq_none]; intro r hr; simpa using hrow r hr
  rw [GetProductByID_miss env w productID hmiss]
  unfold ProductRepository.FindByID
  rw [hfind]
  cases env.dbFails <;> simp [hcache]

/-- C5 at the spec scenario: id 999999 in a store that holds only the widget. -/
theorem C5_not_found_creates_no_entry_witness :
    (∃ err, (GetProductByID healthy widgetWorld 999999).ret = .error err)
      ∧ (healthy.dbFails = false →
          (GetProductByID healthy widgetWorld 999999).ret
            = .error (.message "product not found"))
      ∧ (GetProductByID healthy widgetWorld 999999).world = widgetWorld
      ∧ (GetProductByID healthy widgetWorld 999999).world.cache.lookup (productCacheKey 999999)
          = none :=
  C5_not_found_creates_no_entry healthy widgetWorld 999999 (by rfl) (by decide)

/-- How the stale world comes about: the bare widget was read once (snapshot cached),
then its task was processed at clock reading 100 while the cache delete failed. -/
theorem staleBareWorld_reached :
    (ProcessProductImages { deleteFails with now := 100 } cachedBareWorld 1 []).ret = .ok ()
      ∧ (ProcessProductImages { deleteFails with now := 100 } cachedBareWorld 1 []).world
          = staleBareWorld := by
  constructor <;>
    simp [ProcessProductImages, ProductRepository.UpdateCompressedImages, RedisCache.Delete,
      deleteFails, healthy, cachedBareWorld, bareWorld, staleBareWorld, bareWidget,
      bareWidgetReprocessed, compressLoop]

/-- The character of a digit is the ASCII code 48 plus the digit. -/
theorem digitChar_val (d : Nat) (h : d < 10) : (digitChar d).toNat = 48 + d := by
  unfold digitChar
  interval_cases d <;> rfl

/-- Two lists of digits with the same characters are the same list. -/
theorem map_digitChar_inj (ds es : List Nat) (hd : ∀ d ∈ ds, d < 10) (he : ∀ d ∈ es, d < 10)
    (h : ds.map digitChar = es.map digitChar) : ds = es := by
  have key : ∀ l : List Nat, (∀ d ∈ l, d < 10) →
      (l.map digitChar).map (fun c => c.toNat - 48) = l := by
    intro l hl
    rw [List.map_map]
    conv_rhs => rw [← List.map_id l]
    apply List.map_congr_left
    intro d hd
    simp [digitChar_val d (hl d hd)]
  rw [← key ds hd, ← key es he, h]

/-- The characters printed for the digits of a number are ASCII digits. -/
theorem digits_chars (n : Nat) :
    ∀ c ∈ (Nat.digits 10 n).reverse.map digitChar, 48 ≤ c.toNat ∧ c.toNat < 58 := by
  intro c hc
  simp only [List.mem_map, List.mem_reverse] at hc
  rcases hc with ⟨d, hd, rfl⟩
  rw [digitChar_val d (Nat.digits_lt_base (by norm_num) hd)]
  have := Nat.digits_lt_base (by norm_num : 1 < 10) hd
  omega

/-- A printed natural number consists of ASCII digits. -/
theorem fmtNat_chars (n : Nat) : ∀ c ∈ fmtNat n, 48 ≤ c.toNat ∧ c.toNat < 58 := by
  intro c hc
  unfold fmtNat at hc
  split at hc
  · simp at hc; subst hc; decide
  · exact digits_chars n c hc

/-- Printing natural numbers is injective. -/
theorem fmtNat_inj (n m : Nat) (h : fmtNat n = fmtNat m) : n = m := by
  have zero_case : ∀ k : Nat, k ≠ 0 → ['0'] ≠ (Nat.digits 10 k).reverse.map digitChar := by
    intro k hk e
    have e2 : [0].map digitChar = (Nat.digits 10 k).reverse.map digitChar := by
      simpa [digitChar] using e
    have := map_digitChar_inj [0] (Nat.digits 10 k).reverse (by simp)
      (by intro d hd; exact Nat.digits_lt_base (by norm_num) (List.mem_reverse.mp hd)) e2
    have h3 : Nat.digits 10 k = [0] := by
      have := congrArg List.reverse this
      simpa using this.symm
    have h4 := Nat.getLast_digit_ne_zero 10 hk
    simp [h3] at h4
  unfold fmtNat at h
  by_cases hn : n = 0 <;> by_cases hm : m = 0
  · rw [hn, hm]
  · simp only [hn, hm, if_true, if_false] at h
    exact absurd h (zero_case m hm)
  · simp only [hn, hm, if_true, if_false] at h
    exact absurd h.symm (zero_case n hn)
  · simp only [hn, hm, if_false] at h
    have := map_digitChar_inj _ _
      (by intro d hd; exact Nat.digits_lt_base (by norm_num) (List.mem_reverse.mp hd))
      (by intro d hd; exact Nat.digits_lt_base (by norm_num) (List.mem_reverse.mp hd)) h
    exact Nat.digits.injective 10 (List.reverse_injective this)

/-- The verb `%d` never prints a colon. -/
theorem fmtD_chars (i : Int) : ∀ c ∈ fmtD i, c ≠ ':' := by
  intro c hc
  unfold fmtD at hc
  split at hc
  · rcases List.mem_cons.mp hc with rfl | hc
    · decide
    · intro e; subst e
      have := fmtNat_chars _ _ hc
      revert this; decide
  · intro e; subst e
    have := fmtNat_chars _ _ hc
    revert this; decide

/-- The verb `%d` is injective. -/
theorem fmtD_inj (i j : Int) (h : fmtD i = fmtD j) : i = j := by
  have head_digit : ∀ (n : Nat) (rest : List Char), fmtNat n ≠ '-' :: rest := by
    intro n rest e
    have := fmtNat_chars n '-' (by rw [e]; simp)
    revert this; decide
  unfold fmtD at h
  by_cases hi : i < 0 <;> by_cases hj : j < 0
  · simp only [hi, hj, if_true, List.cons.injEq, true_and] at h
    have := fmtNat_inj _ _ h
    omega
  · simp only [hi, hj, if_true, if_false] at h
    exact absurd h.symm (head_digit _ _)
  · simp only [hi, hj, if_true, if_false] at h
    exact absurd h (head_digit _ _)
  · simp only [hi, hj, if_false] at h
    have := fmtNat_inj _ _ h
    omega

/-- Six-decimal printing never prints a colon. -/
theorem fmtFixed6_chars (x : ℚ) : ∀ c ∈ fmtFixed6 x, c ≠ ':' := by
  intro c hc e
  subst e
  unfold fmtFixed6 padZeros at hc
  simp only [List.mem_append, List.mem_cons, List.mem_replicate] at hc
  rcases hc with (h | h) | h | h | h
  · split at h <;> simp at h
  · have := fmtNat_chars _ _ h
    revert this; decide
  · exact absurd h (by decide)
  · exact absurd h.2 (by decide)
  · split at h
    · simp at h
    · have := digits_chars _ _ h
      revert this; decide

/-- The verb `%f` never prints a colon, whatever the float. -/
theorem fmtF_chars (v : F64) : ∀ c ∈ fmtF v, c ≠ ':' := by
  cases v with
  | finite x => exact fmtFixed6_chars x
  | negZero => decide
  | posInf => decide
  | negInf => decide
  | nan => decide

/-- A value within half a unit above `n` rounds to `n`. -/
theorem roundHalfEven_of_lt (x : ℚ) (n : Nat) (h1 : (n : ℚ) ≤ x) (h2 : x < n + 1 / 2) :
    roundHalfEven x = n := by
  have hf : x.floor = (n : Int) := by
    have : ⌊x⌋ = (n : Int) := by
      rw [Int.floor_eq_iff]
      constructor
      · exact_mod_cast h1
      · push_cast; linarith
    exact this
  unfold roundHalfEven
  simp only [hf]
  have hr : x - ((n : Int) : ℚ) < 1 / 2 := by push_cast; linarith
  rw [if_pos hr]
  simp

/-- The prices 1 and 1 + 2^-30 print alike under `%f`: `1.000000`. -/
theorem fmtF_collision : fmtF (.finite (1 + 1 / 2 ^ 30)) = fmtF (.finite 1) := by
  have e1 : roundHalfEven (|(1 : ℚ) + 1 / 2 ^ 30| * 1000000) = 1000000 := by
    apply roundHalfEven_of_lt
    · rw [abs_of_pos (by norm_num)]; norm_num
    · rw [abs_of_pos (by norm_num)]; norm_num
  have e2 : roundHalfEven (|(1 : ℚ)| * 1000000) = 1000000 := by
    apply roundHalfEven_of_lt <;> norm_num
  have s1 : ¬ ((1 : ℚ) + 1 / 2 ^ 30 < 0) := by norm_num
  have s2 : ¬ ((1 : ℚ) < 0) := by norm_num
  show fmtFixed6 (1 + 1 / 2 ^ 30) = fmtFixed6 1
  unfold fmtFixed6
  simp only [e1, e2, s1, s2, if_false]

/-- A text is cut in one way only at the first occurrence of a separator. -/
theorem split_left (a a2 r r2 : List Char) (sep : Char)
    (ha : sep ∉ a) (ha2 : sep ∉ a2) (h : a ++ sep :: r = a2 ++ sep :: r2) :
    a = a2 ∧ r = r2 := by
  induction a generalizing a2 with
  | nil =>
    cases a2 with
    | nil => simpa using h
    | cons c cs =>
      simp at h
      exact absurd h.1 (by intro e; apply ha2; simp [e])
  | cons c cs ih =>
    cases a2 with
    | nil =>
      simp at h
      exact absurd h.1 (by intro e; apply ha; simp [e])
    | cons c2 cs2 =>
      simp only [List.cons_append, List.cons.injEq] at h
      have := ih cs2 (fun hm => ha (List.mem_cons_of_mem _ hm))
        (fun hm => ha2 (List.mem_cons_of_mem _ hm)) h.2
      exact ⟨by rw [h.1, this.1], this.2⟩

/-- A text is cut in one way only at the last occurrence of a separator. -/
theorem split_right (a a2 r r2 : List Char) (sep : Char)
    (hr : sep ∉ r) (hr2 : sep ∉ r2) (h : a ++ sep :: r = a2 ++ sep :: r2) :
    a = a2 ∧ r = r2 := by
  have h2 := congrArg List.reverse h
  simp only [List.reverse_append, List.reverse_cons, List.append_assoc,
    List.singleton_append] at h2
  have := split_left r.reverse r2.reverse a.reverse a2.reverse sep (by simpa using hr)
    (by simpa using hr2) h2
  exact ⟨List.reverse_injective this.2, List.reverse_injective this.1⟩

/-! ### The list cache key -/

/-- The characters of a list cache key, field by field. -/
theorem listCacheKey_data (p : ProductFilterParams) :
    (listCacheKey p).data
      = "products:".data ++ (fmtD p.UserID ++ ':' :: (fmtF p.MinPrice ++ ':' :: (fmtF p.MaxPrice
          ++ ':' :: ((p.ProductName.data ++ ':' :: fmtD p.Page) ++ ':' :: fmtD p.PageSize)))) := by
  simp [listCacheKey, String.data_append]

/-- The product key of id 999999 is `product:999999`. -/
theorem productCacheKey_example : productCacheKey 999999 = "product:999999" := by
  simp [productCacheKey, fmtD, fmtNat, digitChar]

/-- The price 0 prints as `0.000000`. -/
theorem fmtF_zero : fmtF (.finite 0) = "0.000000".data := by
  have e : roundHalfEven (|(0 : ℚ)| * 1000000) = 0 := by
    apply roundHalfEven_of_lt <;> norm_num
  show fmtFixed6 0 = "0.000000".data
  unfold fmtFixed6
  rw [e]
  simp [fmtNat, padZeros]

/-- Negative zero keeps its sign under `%f`, the infinities and NaN print by name. -/
theorem fmtF_special :
    fmtF .negZero = "-0.000000".data ∧ fmtF .posInf = "+Inf".data
      ∧ fmtF .negInf = "-Inf".data ∧ fmtF .nan = "NaN".data ∧ fmtF .negZero ≠ fmtF (.finite 0) := by
  refine ⟨rfl, rfl, rfl, rfl, ?_⟩
  rw [fmtF_zero]
  decide

/-- The keys of the two requests of the pagination scenario, as printed. -/
theorem listCacheKey_examples :
    listCacheKey rawPageZero = "products:1:0.000000:0.000000::0:0"
      ∧ listCacheKey firstPageOfTen = "products:1:0.000000:0.000000::1:10" := by
  constructor <;>
  · apply String.ext
    rw [listCacheKey_data]
    simp [rawPageZero, firstPageOfTen, fmtF_zero, fmtD, fmtNat, digitChar]

/-- From equal list cache keys every field can be read back, the prices as printed. -/
theorem listCacheKey_fields (p q : ProductFilterParams) (h : listCacheKey p = listCacheKey q) :
    p.UserID = q.UserID ∧ fmtF p.MinPrice = fmtF q.MinPrice
      ∧ fmtF p.MaxPrice = fmtF q.MaxPrice ∧ p.ProductName = q.ProductName
      ∧ p.Page = q.Page ∧ p.PageSize = q.PageSize := by
  have hd := congrArg String.data h
  rw [listCacheKey_data, listCacheKey_data] at hd
  have h0 := List.append_cancel_left hd
  have h1 := split_left _ _ _ _ ':' (fun m => fmtD_chars _ _ m rfl)
    (fun m => fmtD_chars _ _ m rfl) h0
  have h2 := split_left _ _ _ _ ':' (fun m => fmtF_chars _ _ m rfl)
    (fun m => fmtF_chars _ _ m rfl) h1.2
  have h3 := split_left _ _ _ _ ':' (fun m => fmtF_chars _ _ m rfl)
    (fun m => fmtF_chars _ _ m rfl) h2.2
  have h4 := split_right _ _ _ _ ':' (fun m => fmtD_chars _ _ m rfl)
    (fun m => fmtD_chars _ _ m rfl) h3.2
  have h5 := split_right _ _ _ _ ':' (fun m => fmtD_chars _ _ m rfl)
    (fun m => fmtD_chars _ _ m rfl) h4.1
  exact ⟨fmtD_inj _ _ h1.1, h2.1, h3.1, String.ext h5.1, fmtD_inj _ _ h5.2, fmtD_inj _ _ h4.2⟩

/-- The first infrastructure call of `ListProducts` is the cache read under the key
formatted from the request as received. -/
theorem ListProducts_trace_head (env : Env) (w : World) (params : ProductFilterParams) :
    (ListProducts env w params).1.trace.head?
      = some (Effect.cacheGetList (listCacheKey params)) := by
  unfold ListProducts
  simp only [validateFilterParams]
  split
  · rfl
  · split
    · rfl
    · split <;> rfl

/-- C7, as stated, fails: the requests with minimum price 1 and 1 + 2^-30 differ in one
field and get the same list cache key, because `%f` prints both prices as
`1.000000`. -/
theorem C7_counterexample_price_rounding :
    minPriceOne ≠ minPriceAboveOne
      ∧ listCacheKey minPriceOne = listCacheKey minPriceAboveOne := by
  constructor
  · intro h
    have := congrArg ProductFilterParams.MinPrice h
    simp [minPriceOne, minPriceAboveOne] at this
  · simp only [listCacheKey, minPriceOne, minPriceAboveOne, fmtF_collision]

/-- C7, amended: two filter tuples get the same list cache key exactly when they agree
on the owner user ID, the name substring, the page and the page size, and their
minimum prices, and their maximum prices, print alike under `%f` (six
decimals). So tuples that differ in owner, name, page or page size always get
different keys, and equal tuples always get equal keys. -/
theorem C7_list_key_equal_iff_printed_fields_equal (p q : ProductFilterParams) :
    listCacheKey p = listCacheKey q ↔
      p.UserID = q.UserID ∧ fmtF p.MinPrice = fmtF q.MinPrice
        ∧ fmtF p.MaxPrice = fmtF q.MaxPrice ∧ p.ProductName = q.ProductName
        ∧ p.Page = q.Page ∧ p.PageSize = q.PageSize := by
  constructor
  · exact listCacheKey_fields p q
  · rintro ⟨h1, h2, h3, h4, h5, h6⟩
    simp [listCacheKey, h1, h2, h3, h4, h5, h6]

/-- C8, as stated, fails: `(user_id 1, page 0, page_size 0)` and
`(user_id 1, page 1, page_size 10)` have the same normalized tuple, yet
`ListProducts` looks up two different cache keys for them. -/
theorem C8_counterexample_raw_page_in_key :
    normalizePagination rawPageZero = normalizePagination firstPageOfTen
      ∧ (ListProducts healthy widgetWorld rawPageZero).1.trace.head?
          = some (Effect.cacheGetList "products:1:0.000000:0.000000::0:0")
      ∧ (ListProducts healthy widgetWorld firstPageOfTen).1.trace.head?
          = some (Effect.cacheGetList "products:1:0.000000:0.000000::1:10")
      ∧ (ListProducts healthy widgetWorld rawPageZero).1.trace.head?
          ≠ (ListProducts healthy widgetWorld firstPageOfTen).1.trace.head? := by
  refine ⟨by decide, ?_, ?_, ?_⟩
  · rw [ListProducts_trace_head, listCacheKey_examples.1]
  · rw [ListProducts_trace_head, listCacheKey_examples.2]
  · rw [ListProducts_trace_head, ListProducts_trace_head]
    intro h
    have hk : listCacheKey rawPageZero = listCacheKey firstPageOfTen := by simpa using h
    have := (listCacheKey_fields rawPageZero firstPageOfTen hk).2.2.2.2.1
    simp [rawPageZero, firstPageOfTen] at this

/-- C8, amended: `ListProducts` derives its cache key from the filter tuple as received:
whenever two requests are looked up under the same key, their page and page size
are equal as received. The defaults (page 1, page size 10) are applied
afterwards, by `FindByUserID`, which hands back the normalized tuple. -/
theorem C8_same_key_same_raw_pagination (env1 env2 : Env) (w1 w2 : World)
    (p q : ProductFilterParams)
    (h : (ListProducts env1 w1 p).1.trace.head? = (ListProducts env2 w2 q).1.trace.head?) :
    (ListProducts env1 w1 p).1.trace.head? = some (Effect.cacheGetList (listCacheKey p))
      ∧ p.Page = q.Page ∧ p.PageSize = q.PageSize
      ∧ (ProductRepository.FindByUserID env1 w1.db p).2.1 = normalizePagination p := by
  refine ⟨ListProducts_trace_head env1 w1 p, ?_⟩
  rw [ListProducts_trace_head, ListProducts_trace_head] at h
  have hk : listCacheKey p = listCacheKey q := by simpa using h
  have hf := listCacheKey_fields p q hk
  refine ⟨hf.2.2.2.2.1, hf.2.2.2.2.2, ?_⟩
  unfold ProductRepository.FindByUserID
  simp only
  split
  · rfl
  · split
    · rfl
    · split <;> rfl

/-- The amended C8 at the spec scenario: the same request `(user_id 1, page 0,
page_size 0)` issued on a healthy infrastructure and during a Redis outage is
looked up under one key. -/
theorem C8_same_key_same_raw_pagination_witness :
    (ListProducts healthy widgetWorld rawPageZero).1.trace.head?
        = some (Effect.cacheGetList (listCacheKey rawPageZero))
      ∧ rawPageZero.Page = rawPageZero.Page ∧ rawPageZero.PageSize = rawPageZero.PageSize
      ∧ (ProductRepository.FindByUserID healthy widgetWorld.db rawPageZero).2.1
          = normalizePagination rawPageZero :=
  C8_same_key_same_raw_pagination healthy cacheDown widgetWorld staleCacheWorld
    rawPageZero rawPageZero
    (by rw [ListProducts_trace_head, ListProducts_trace_head])

/-! ### Request validation and `CreateProduct` -/

/-- A field passes exactly when all of its tags hold. -/
theorem firstFailing_eq_nil_iff (field : String) (checks : List (String × Bool)) :
    firstFailing field checks = [] ↔ ∀ c ∈ checks, c.2 = true := by
  unfold firstFailing
  cases h : checks.find? (fun c => !c.2) with
  | none =>
    simp only [true_iff]
    intro c hc
    have := List.find?_eq_none.mp h c hc
    simpa using this
  | some c =>
    simp only [List.cons_ne_nil, false_iff]
    intro hall
    have hm := List.mem_of_find?_eq_some h
    have hp := List.find?_some h
    rw [hall c hm] at hp
    simp at hp

/-- What the struct tags of `ProductCreateRequest` accept: a non-zero user ID, a name of
1 to 255 runes, a price that is not zero and not negative, and a non-nil image
slice. -/
theorem validateCreateRequest_eq_nil_iff (req : ProductCreateRequest) :
    validateCreateRequest req = [] ↔
      req.UserID ≠ 0 ∧ req.ProductName ≠ "" ∧ req.ProductName.length ≤ 255
        ∧ 0 < req.ProductPrice ∧ req.ProductImages ≠ none := by
  unfold validateCreateRequest
  simp only [List.append_eq_nil, firstFailing_eq_nil_iff, requiredInt, requiredString,
    requiredFloat, requiredSlice, maxString, minFloat, List.mem_cons, List.mem_singleton,
    List.not_mem_nil, or_false, forall_eq_or_imp, forall_eq, bne_iff_ne, ne_eq,
    decide_eq_true_eq, Option.isSome_iff_ne_none]
  constructor
  · rintro ⟨⟨⟨h1, h2, h3⟩, h4, h5⟩, h6⟩
    exact ⟨h1, h2, h3, lt_of_le_of_ne h5 (Ne.symm h4), h6⟩
  · rintro ⟨h1, h2, h3, h4, h6⟩
    exact ⟨⟨⟨h1, h2, h3⟩, ne_of_gt h4, h4.le⟩, h6⟩

/-- A request that fails validation is answered before anything else happens. -/
theorem CreateProduct_invalid (env : Env) (w : World) (req : ProductCreateRequest)
    (h : validateCreateRequest req ≠ []) :
    CreateProduct env w req = ⟨.error (.validation (validateCreateRequest req)), w, []⟩ := by
  unfold CreateProduct
  cases hv : validateCreateRequest req with
  | nil => exact absurd hv h
  | cons f fs => rfl

/-- A request that passes validation reaches the store insert, with its own fields. -/
theorem CreateProduct_valid_trace_head (env : Env) (w : World) (req : ProductCreateRequest)
    (h : validateCreateRequest req = []) :
    (∀ failed, (CreateProduct env w req).ret ≠ .error (.validation failed))
      ∧ (CreateProduct env w req).trace.head?
        = some (Effect.dbInsert req.UserID req.ProductName req.ProductDescription
            req.ProductPrice (req.ProductImages.getD [])) := by
  unfold CreateProduct
  simp only [h, ProductRepository.Create, PublishImageProcessingTask]
  cases env.dbFails <;> cases env.publishFails <;> simp

/-- C9, as stated, fails: a request with the empty image list `[]` (and otherwise
valid) is not rejected. `CreateProduct` inserts the product, publishes a task
with no image and returns the product with id 2. -/
theorem C9_counterexample_empty_image_list :
    noImagesRequest.ProductImages = some []
      ∧ (CreateProduct healthy widgetWorld noImagesRequest).ret
          = .ok { ID := 2, UserID := 1, ProductName := "Widget", ProductDescription := "",
                  ProductPrice := 19 / 2, ProductImages := [], CompressedProductImages := [],
                  CreatedAt := 100, UpdatedAt := 100 }
      ∧ (CreateProduct healthy widgetWorld noImagesRequest).trace
          = [Effect.dbInsert 1 "Widget" "" (19 / 2) [], Effect.publish 2 []] := by
  have hv : validateCreateRequest noImagesRequest = [] := by
    rw [validateCreateRequest_eq_nil_iff]
    refine ⟨by decide, by decide, by decide, ?_, by decide⟩
    norm_num [noImagesRequest]
  refine ⟨rfl, ?_, ?_⟩ <;> simp only [CreateProduct, hv] <;>
    simp [ProductRepository.Create, insertedRow, PublishImageProcessingTask, healthy,
      widgetWorld, noImagesRequest]

/-- C9, amended: for every creation request with a missing (zero) user ID, an empty
product name, a product name longer than 255 characters, a negative price, or a
missing (nil) image list, `CreateProduct` returns a validation error and no
product, leaves the world unchanged and makes no infrastructure call: no store
insert, no published task. -/
theorem C9_invalid_request_rejected_untouched (env : Env) (w : World)
    (req : ProductCreateRequest)
    (h : req.UserID = 0 ∨ req.ProductName = "" ∨ 255 < req.ProductName.length
      ∨ req.ProductPrice < 0 ∨ req.ProductImages = none) :
    (∃ failed, failed ≠ [] ∧ (CreateProduct env w req).ret = .error (.validation failed))
      ∧ (CreateProduct env w req).world = w
      ∧ (CreateProduct env w req).trace = [] := by
  have hv : validateCreateRequest req ≠ [] := by
    rw [Ne, validateCreateRequest_eq_nil_iff]
    rintro ⟨h1, h2, h3, h4, h5⟩
    rcases h with h | h | h | h | h
    · exact h1 h
    · exact h2 h
    · omega
    · exact absurd h4 (not_lt.mpr h.le)
    · exact h5 h
  rw [CreateProduct_invalid env w req hv]
  exact ⟨⟨_, hv, rfl⟩, rfl, rfl⟩

/-- The amended C9 at a request that breaks several rules at once. -/
theorem C9_invalid_request_rejected_untouched_witness :
    (∃ failed, failed ≠ []
        ∧ (CreateProduct healthy widgetWorld invalidRequest).ret = .error (.validation failed))
      ∧ (CreateProduct healthy widgetWorld invalidRequest).world = widgetWorld
      ∧ (CreateProduct healthy widgetWorld invalidRequest).trace = [] :=
  C9_invalid_request_rejected_untouched healthy widgetWorld invalidRequest (Or.inl rfl)

/-- C10 at the failing input: a request with a non-zero user ID, the name `Widget`, two
images and price 0 meets every condition of the claim, yet `CreateProduct`
returns a validation error on `ProductPrice` (tag `required`) and never reaches
the store insert. -/
theorem C10_price_zero_fails_required :
    freeWidgetRequest.UserID ≠ 0 ∧ freeWidgetRequest.ProductName ≠ ""
      ∧ freeWidgetRequest.ProductName.length ≤ 255
      ∧ freeWidgetRequest.ProductImages = some ["a.jpg", "b.jpg"]
      ∧ 0 ≤ freeWidgetRequest.ProductPrice
      ∧ (CreateProduct healthy widgetWorld freeWidgetRequest).ret
          = .error (.validation [("ProductPrice", "required")])
      ∧ (CreateProduct healthy widgetWorld freeWidgetRequest).world = widgetWorld
      ∧ (CreateProduct healthy widgetWorld freeWidgetRequest).trace = [] := by
  have hl : "Widget".length ≤ 255 := by decide
  have hv : validateCreateRequest freeWidgetRequest = [("ProductPrice", "required")] := by
    simp [hl, validateCreateRequest, firstFailing, requiredInt, requiredString, requiredFloat,
      requiredSlice, maxString, minFloat, freeWidgetRequest, List.find?]
  refine ⟨by decide, by decide, by decide, rfl, le_refl _, ?_, ?_, ?_⟩ <;>
    simp [CreateProduct, hv]

/-- C11: for every creation request that passes validation, when the store insert
succeeds `CreateProduct` returns a product with no error, whether publishing the
image-processing task succeeds or fails. The store appends one row, whose id is
the next value of the id sequence, and advances the sequence; the product
returned carries that store-assigned id, the user ID, name, description, price
and images of the request, and an empty compressed-images list. -/
theorem C11_create_returns_stored_product (env : Env) (w : World) (req : ProductCreateRequest)
    (hvalid : validateCreateRequest req = [])
    (hins : env.dbFails = false) :
    ∃ (p row : Product),
      (CreateProduct env w req).ret = .ok p
        ∧ (CreateProduct env w req).world.db.rows = w.db.rows ++ [row]
        ∧ (CreateProduct env w req).world.db.nextID = w.db.nextID + 1
        ∧ row.ID = w.db.nextID
        ∧ p.ID = w.db.nextID
        ∧ p.ID = row.ID
        ∧ p.UserID = req.UserID
        ∧ p.ProductName = req.ProductName
        ∧ p.ProductDescription = req.ProductDescription
        ∧ p.ProductPrice = req.ProductPrice
        ∧ some p.ProductImages = req.ProductImages
        ∧ p.CompressedProductImages = [] := by
  have himg : ∃ l, req.ProductImages = some l := by
    have := ((validateCreateRequest_eq_nil_iff req).mp hvalid).2.2.2.2
    cases h : req.ProductImages with
    | none => exact absurd h this
    | some l => exact ⟨l, rfl⟩
  rcases himg with ⟨l, hl⟩
  refine ⟨
    { ID := w.db.nextID, UserID := req.UserID, ProductName := req.ProductName,
      ProductDescription := req.ProductDescription, ProductPrice := req.ProductPrice,
      ProductImages := req.ProductImages.getD [], CompressedProductImages := [],
      CreatedAt := env.now, UpdatedAt := env.now },
    insertedRow env w.db
    { ID := 0, UserID := req.UserID, ProductName := req.ProductName,
      ProductDescription := req.ProductDescription, ProductPrice := req.ProductPrice,
      ProductImages := req.ProductImages.getD [], CompressedProductImages := [],
      CreatedAt := env.now, UpdatedAt := env.now }, ?_, ?_, ?_, ?_⟩
  · unfold CreateProduct
    simp only [hvalid, ProductRepository.Create, hins, PublishImageProcessingTask]
    cases hp : env.publishFails <;> simp [insertedRow]
  · unfold CreateProduct
    simp only [hvalid, ProductRepository.Create, hins, PublishImageProcessingTask]
    cases hp : env.publishFails <;> simp
  · unfold CreateProduct
    simp only [hvalid, ProductRepository.Create, hins, PublishImageProcessingTask]
    cases hp : env.publishFails <;> simp
  · simp [insertedRow, hl]

/-- C11 at the spec scenario with the task queue unreachable: the widget is created and
returned all the same, under the id 2 that the sequence of the store held. -/
theorem C11_create_returns_stored_product_witness :
    ∃ (p row : Product),
      (CreateProduct publishDown widgetWorld widgetRequest).ret = .ok p
        ∧ (CreateProduct publishDown widgetWorld widgetRequest).world.db.rows
            = widgetWorld.db.rows ++ [row]
        ∧ (CreateProduct publishDown widgetWorld widgetRequest).world.db.nextID
            = widgetWorld.db.nextID + 1
        ∧ row.ID = widgetWorld.db.nextID
        ∧ p.ID = widgetWorld.db.nextID
        ∧ p.ID = row.ID
        ∧ p.UserID = widgetRequest.UserID
        ∧ p.ProductName = widgetRequest.ProductName
        ∧ p.ProductDescription = widgetRequest.ProductDescription
        ∧ p.ProductPrice = widgetRequest.ProductPrice
        ∧ some p.ProductImages = widgetRequest.ProductImages
        ∧ p.CompressedProductImages = [] :=
  C11_create_returns_stored_product publishDown widgetWorld widgetRequest
    (by rw [validateCreateRequest_eq_nil_iff]
        refine ⟨by decide, by decide, by decide, ?_, by decide⟩
        norm_num [widgetRequest])
    rfl

/-! ### Re-running `ProcessProductImages` -/

/-- The table after `ProcessProductImages`: untouched when the update fails, otherwise
every row of the product carries the compressed names and the clock reading. -/
theorem ProcessProductImages_db (env : Env) (w : World) (productID : Int)
    (urls : List String) :
    (ProcessProductImages env w productID urls).world.db
      = if env.dbFails then w.db
        else { w.db with rows := w.db.rows.map (fun r =>
          if r.ID = productID then
            { r with CompressedProductImages := urls.map (fun url => "compressed_" ++ url),
                     UpdatedAt := env.now }
          else r) } := by
  unfold ProcessProductImages ProductRepository.UpdateCompressedImages RedisCache.Delete
  rw [compressLoop_eq_map]
  cases env.dbFails <;> cases env.cacheDeleteFails <;> simp

/-- `ProcessProductImages` returns without error exactly when the store update does. -/
theorem ProcessProductImages_ok_iff (env : Env) (w : World) (productID : Int)
    (urls : List String) :
    (ProcessProductImages env w productID urls).ret = .ok () ↔ env.dbFails = false := by
  unfold ProcessProductImages ProductRepository.UpdateCompressedImages RedisCache.Delete
  cases env.dbFails <;> cases env.cacheDeleteFails <;> simp

/-- The compressed-images update leaves the rows of other products as they are. -/
theorem filter_others_update (rows : List Product) (productID : Int) (l : List String)
    (now : Nat) :
    (rows.map (fun r =>
        if r.ID = productID then { r with CompressedProductImages := l, UpdatedAt := now }
        else r)).filter (fun r => r.ID != productID)
      = rows.filter (fun r => r.ID != productID) := by
  induction rows with
  | nil => rfl
  | cons r rest ih =>
    by_cases h : r.ID = productID
    · simp only [List.map_cons, h, if_true, List.filter_cons, bne_self_eq_false,
        Bool.false_eq_true, if_false]
      exact ih
    · simp only [List.map_cons, h, if_false, List.filter_cons]
      rw [ih]

/-- C12, as stated, fails: the widget is processed at clock reading 100 and again, with
the same arguments, at 200. Both runs succeed; the second run stores the same
compressed list but sets `updated_at` again, so the store is not in the state
the first run left. -/
theorem C12_counterexample_update_timestamp :
    (ProcessProductImages healthy widgetWorld 1 ["a.jpg", "b.jpg"]).ret = .ok ()
      ∧ (ProcessProductImages healthy widgetWorld 1 ["a.jpg", "b.jpg"]).world.db.rows
          = [processedWidget]
      ∧ (ProcessProductImages laterClock
            (ProcessProductImages healthy widgetWorld 1 ["a.jpg", "b.jpg"]).world 1
            ["a.jpg", "b.jpg"]).ret = .ok ()
      ∧ (ProcessProductImages laterClock
            (ProcessProductImages healthy widgetWorld 1 ["a.jpg", "b.jpg"]).world 1
            ["a.jpg", "b.jpg"]).world.db.rows
          = [{ processedWidget with UpdatedAt := 200 }]
      ∧ (ProcessProductImages laterClock
            (ProcessProductImages healthy widgetWorld 1 ["a.jpg", "b.jpg"]).world 1
            ["a.jpg", "b.jpg"]).world.db
          ≠ (ProcessProductImages healthy widgetWorld 1 ["a.jpg", "b.jpg"]).world.db := by
  have h1 : (ProcessProductImages healthy widgetWorld 1 ["a.jpg", "b.jpg"]).world.db
      = { rows := [processedWidget], nextID := 2 } := by
    rw [ProcessProductImages_db]
    simp [healthy, widgetWorld, widget, processedWidget]
  have h2 : (ProcessProductImages laterClock
        (ProcessProductImages healthy widgetWorld 1 ["a.jpg", "b.jpg"]).world 1
        ["a.jpg", "b.jpg"]).world.db
      = { rows := [{ processedWidget with UpdatedAt := 200 }], nextID := 2 } := by
    rw [ProcessProductImages_db, h1]
    simp [laterClock, healthy, widget, processedWidget]
  refine ⟨?_, ?_, ?_, ?_, ?_⟩
  · rw [ProcessProductImages_ok_iff]; rfl
  · rw [h1]
  · rw [ProcessProductImages_ok_iff]; rfl
  · rw [h2]
  · rw [h1, h2]
    simp [processedWidget, widget]

/-- C12, amended: after a first successful run, running `ProcessProductImages` again
with the same arguments leaves the store as the first run left it except for the
update timestamp of the product: the id sequence is unchanged, every row agrees
with its state after the first run in every column but `updated_at` (so the
compressed list is the identical list, nothing appended or duplicated), the rows
of other products are unchanged altogether, and when both runs read the same
clock the store is exactly the same. -/
theorem C12_second_run_same_store_up_to_timestamp (env1 env2 : Env) (w : World)
    (productID : Int) (urls : List String)
    (hfirst : (ProcessProductImages env1 w productID urls).ret = .ok ()) :
    (ProcessProductImages env2 (ProcessProductImages env1 w productID urls).world
          productID urls).world.db.nextID
        = (ProcessProductImages env1 w productID urls).world.db.nextID
      ∧ (ProcessProductImages env2 (ProcessProductImages env1 w productID urls).world
          productID urls).world.db.rows.map (fun r => { r with UpdatedAt := 0 })
        = (ProcessProductImages env1 w productID urls).world.db.rows.map
            (fun r => { r with UpdatedAt := 0 })
      ∧ (ProcessProductImages env2 (ProcessProductImages env1 w productID urls).world
          productID urls).world.db.rows.filter (fun r => r.ID != productID)
        = (ProcessProductImages env1 w productID urls).world.db.rows.filter
            (fun r => r.ID != productID)
      ∧ (env2.now = env1.now →
          (ProcessProductImages env2 (ProcessProductImages env1 w productID urls).world
            productID urls).world.db
          = (ProcessProductImages env1 w productID urls).world.db) := by
  have hup : env1.dbFails = false :=
    (ProcessProductImages_ok_iff env1 w productID urls).mp hfirst
  rw [ProcessProductImages_db env2, ProcessProductImages_db env1, hup]
  simp only [Bool.false_eq_true, if_false]
  cases h2 : env2.dbFails
  · simp only [Bool.false_eq_true, if_false]
    refine ⟨trivial, ?_, filter_others_update _ productID _ env2.now, ?_⟩
    · rw [List.map_map, List.map_map, List.map_map]
      apply List.map_congr_left
      intro r _
      by_cases h : r.ID = productID <;> simp [h]
    · intro hnow
      congr 1
      rw [List.map_map]
      apply List.map_congr_left
      intro r _
      by_cases h : r.ID = productID <;> simp [h, hnow]
  · simp

/-- The amended C12 at the spec scenario: the widget is processed at clock reading 100
and again at 200. -/
theorem C12_second_run_same_store_up_to_timestamp_witness :
    (ProcessProductImages laterClock (ProcessProductImages healthy widgetWorld 1
          ["a.jpg", "b.jpg"]).world 1 ["a.jpg", "b.jpg"]).world.db.nextID
        = (ProcessProductImages healthy widgetWorld 1 ["a.jpg", "b.jpg"]).world.db.nextID
      ∧ (ProcessProductImages laterClock (ProcessProductImages healthy widgetWorld 1
          ["a.jpg", "b.jpg"]).world 1 ["a.jpg", "b.jpg"]).world.db.rows.map
            (fun r => { r with UpdatedAt := 0 })
        = (ProcessProductImages healthy widgetWorld 1 ["a.jpg", "b.jpg"]).world.db.rows.map
            (fun r => { r with UpdatedAt := 0 })
      ∧ (ProcessProductImages laterClock (ProcessProductImages healthy widgetWorld 1
          ["a.jpg", "b.jpg"]).world 1 ["a.jpg", "b.jpg"]).world.db.rows.filter
            (fun r => r.ID != 1)
        = (ProcessProductImages healthy widgetWorld 1 ["a.jpg", "b.jpg"]).world.db.rows.filter
            (fun r => r.ID != 1)
      ∧ (laterClock.now = healthy.now →
          (ProcessProductImages laterClock (ProcessProductImages healthy widgetWorld 1
            ["a.jpg", "b.jpg"]).world 1 ["a.jpg", "b.jpg"]).world.db
          = (ProcessProductImages healthy widgetWorld 1 ["a.jpg", "b.jpg"]).world.db) :=
  C12_second_run_same_store_up_to_timestamp healthy laterClock widgetWorld 1
    ["a.jpg", "b.jpg"] (by rw [ProcessProductImages_ok_iff]; rfl)

end ProductManagement
